import Mathlib

/-!
Shallow embedding of the authentication and session core of
`src/backend/src/auth.js` (dropship-manager).

JavaScript objects used as maps (`users`, `sessions`) are modelled as
association lists with string keys and unique-key first-match lookup;
`Date.now()` and the random sources (`crypto.randomBytes` for salts and
tokens) are passed in as explicit arguments; every exported mutating
function becomes a pure function from the current state (plus clock and
randomness inputs) to a (result, new state) pair.
-/

set_option autoImplicit false

namespace Auth

/-! ## Association-list maps (model of plain JS object maps) -/

/-- First-match lookup, model of `obj[key]` on a JS object. -/
def findEntry {α : Type} (k : String) : List (String × α) → Option α
  | [] => none
  | (k₂, v) :: rest => if k₂ = k then some v else findEntry k rest

/-- Insert or overwrite, model of `obj[key] = v` on a JS object. -/
def setEntry {α : Type} (k : String) (v : α) : List (String × α) → List (String × α)
  | [] => [(k, v)]
  | (k₂, v₂) :: rest => if k₂ = k then (k, v) :: rest else (k₂, v₂) :: setEntry k v rest

/-- Update in place when present, model of mutating an object stored at `obj[key]`. -/
def updateEntry {α : Type} (k : String) (f : α → α) (l : List (String × α)) :
    List (String × α) :=
  l.map fun p => if p.1 = k then (p.1, f p.2) else p

/-- Key removal, model of `delete obj[key]`. -/
def removeEntry {α : Type} (k : String) (l : List (String × α)) : List (String × α) :=
  l.filter fun p => !(p.1 == k)

/-! ## Configuration: `AUTH_CONFIG` of auth.js -/

def maxFailedAttempts : Nat := 6

def lockoutDuration : Nat := 30 * 60 * 1000

def tokenExpiry : Nat := 24 * 60 * 60 * 1000

structure PasswordRequirements where
  minLength : Nat
  requireUppercase : Bool
  requireLowercase : Bool
  requireNumbers : Bool
  requireSpecialChars : Bool
deriving DecidableEq

def passwordRequirements : PasswordRequirements :=
  { minLength := 8
    requireUppercase := true
    requireLowercase := true
    requireNumbers := true
    requireSpecialChars := true }

/-! ## Data model -/

/-- A user record, the value stored at `users[username]`. -/
structure User where
  username : String
  passwordHash : String
  salt : String
  role : String
  createdAt : Nat
  failedAttempts : Nat
  lockedUntil : Option Nat
  lastLogin : Option Nat
deriving DecidableEq

/-- A session record, the value stored at `sessions[token]`. -/
structure Session where
  username : String
  role : String
  createdAt : Nat
  expiresAt : Nat
deriving DecidableEq

/-- The two in-memory stores of auth.js (`let users = {}` / `let sessions = {}`). -/
structure AuthState where
  users : List (String × User)
  sessions : List (String × Session)
deriving DecidableEq

/-- Model of the JS truthiness test `user.lockedUntil && user.lockedUntil > Date.now()`. -/
def User.isLockedAt (u : User) (now : Nat) : Bool :=
  match u.lockedUntil with
  | some t => decide (now < t)
  | none => false

/-! ## Password hashing

`crypto.pbkdf2Sync(password, salt, 10000, 64, sha512)` is a deterministic
digest of the (password, salt) pair; auth.js only ever compares digests for
equality, so it is modelled by an injective encoding of that pair. -/

def pbkdf2Sync (password salt : String) : String :=
  String.intercalate ":" ["pbkdf2", toString password.length, password, salt]

/-- `hashPassword` with the fresh random salt passed in explicitly. -/
def hashPassword (password salt : String) : String × String :=
  (pbkdf2Sync password salt, salt)

def verifyPassword (password hash salt : String) : Bool :=
  hash == pbkdf2Sync password salt

/-! ## Complexity validator -/

/-- The punctuation set of the regex
`/[!@#$%^&*()_+\-=\[\]{};':"\\|,.<>\/?]/` in auth.js. -/
def specialChars : List Char :=
  ['!', '@', '#', '$', '%', '^', '&', '*', '(', ')', '_', '+', '-', '=',
   '[', ']', Char.ofNat 123, Char.ofNat 125, ';', Char.ofNat 39, ':',
   Char.ofNat 34, Char.ofNat 92, '|', ',', '.', '<', '>', '/', '?']

def hasUppercase (s : String) : Bool := s.toList.any Char.isUpper

def hasLowercase (s : String) : Bool := s.toList.any Char.isLower

def hasNumber (s : String) : Bool := s.toList.any Char.isDigit

def hasSpecialChar (s : String) : Bool := s.toList.any fun c => specialChars.contains c

def msgMinLength : String := "Mínimo 8 caracteres"

def msgUppercase : String := "Debe contener al menos una mayúscula"

def msgLowercase : String := "Debe contener al menos una minúscula"

def msgNumber : String := "Debe contener al menos un número"

def msgSpecialChar : String := "Debe contener al menos un carácter especial (!@#$%^&*...)"

structure PasswordValidation where
  valid : Bool
  errors : List String
deriving DecidableEq

/-- `validatePasswordComplexity` of auth.js: the five checks push their
messages in order into one list; `valid` is emptiness of that list. -/
def validatePasswordComplexity (password : String) : PasswordValidation :=
  let errors : List String :=
    (if password.length < passwordRequirements.minLength then [msgMinLength] else []) ++
    (if passwordRequirements.requireUppercase && !(hasUppercase password)
      then [msgUppercase] else []) ++
    (if passwordRequirements.requireLowercase && !(hasLowercase password)
      then [msgLowercase] else []) ++
    (if passwordRequirements.requireNumbers && !(hasNumber password)
      then [msgNumber] else []) ++
    (if passwordRequirements.requireSpecialChars && !(hasSpecialChar password)
      then [msgSpecialChar] else [])
  { valid := errors.isEmpty, errors := errors }

/-! ## Result shapes of the exported operations -/

/-- Shape of the plain `{ success, error?, message?, details? }` results. -/
structure OpResult where
  success : Bool
  error : Option String := none
  message : Option String := none
  details : Option (List String) := none
deriving DecidableEq

/-- Shape of the result of `login`.  A JS field that is absent is `none`;
`remainingAttempts` present-but-null is `some none`. -/
structure LoginResult where
  success : Bool
  error : Option String := none
  locked : Option Bool := none
  remainingAttempts : Option (Option Nat) := none
  token : Option String := none
  user : Option (String × String) := none
deriving DecidableEq

/-- Shape of the result of `validateToken`. -/
structure ValidateResult where
  valid : Bool
  error : Option String := none
  user : Option (String × String) := none
deriving DecidableEq

/-! ## User management -/

/-- `createUser(username, password, role)`; `now` stands for `Date.now()` and
`salt` for the fresh random salt drawn inside `hashPassword`. -/
def createUser (st : AuthState) (now : Nat) (salt : String)
    (username password role : String) : OpResult × AuthState :=
  if username.length < 3 then
    ({ success := false, error := some "Username debe tener al menos 3 caracteres" }, st)
  else
    match findEntry username st.users with
    | some _ => ({ success := false, error := some "El usuario ya existe" }, st)
    | none =>
      let v := validatePasswordComplexity password
      if v.valid then
        let hs := hashPassword password salt
        let newUser : User :=
          { username := username
            passwordHash := hs.1
            salt := hs.2
            role := role
            createdAt := now
            failedAttempts := 0
            lockedUntil := none
            lastLogin := none }
        ({ success := true, message := some "Usuario creado correctamente" },
         { st with users := setEntry username newUser st.users })
      else
        ({ success := false, error := some "Contraseña no cumple requisitos",
           details := some v.errors }, st)

/-- `updatePassword(username, newPassword)`; `salt` is the fresh random salt. -/
def updatePassword (st : AuthState) (salt : String)
    (username newPassword : String) : OpResult × AuthState :=
  match findEntry username st.users with
  | none => ({ success := false, error := some "Usuario no encontrado" }, st)
  | some _ =>
    let v := validatePasswordComplexity newPassword
    if v.valid then
      let hs := hashPassword newPassword salt
      let users₂ :=
        updateEntry username (fun u => { u with passwordHash := hs.1, salt := hs.2 }) st.users
      ({ success := true, message := some "Contraseña actualizada" },
       { st with users := users₂ })
    else
      ({ success := false, error := some "Contraseña no cumple requisitos",
         details := some v.errors }, st)

/-- `deleteUser(username)`: refuses `admin`, removes the user and sweeps every
session whose `username` field references it. -/
def deleteUser (st : AuthState) (username : String) : OpResult × AuthState :=
  if username = "admin" then
    ({ success := false, error := some "No se puede eliminar el usuario admin" }, st)
  else
    match findEntry username st.users with
    | none => ({ success := false, error := some "Usuario no encontrado" }, st)
    | some _ =>
      ({ success := true, message := some "Usuario eliminado" },
       { users := removeEntry username st.users
         sessions := st.sessions.filter fun p => !(p.2.username == username) })

/-- `unlockUser(username)`: resets the counter and clears the lock. -/
def unlockUser (st : AuthState) (username : String) : OpResult × AuthState :=
  match findEntry username st.users with
  | none => ({ success := false, error := some "Usuario no encontrado" }, st)
  | some _ =>
    let users₂ :=
      updateEntry username (fun u => { u with failedAttempts := 0, lockedUntil := none }) st.users
    ({ success := true, message := some "Usuario desbloqueado" }, { st with users := users₂ })

/-! ## Persistence view -/

/-- The record written for one user by `saveUsers`: `failedAttempts` is kept
only when the account is presently locked, otherwise zeroed. -/
def persistedUser (u : User) (now : Nat) : User :=
  { u with failedAttempts := if u.isLockedAt now then u.failedAttempts else 0 }

/-- The `usersToSave` object built by `saveUsers` before writing to disk; the
in-memory `users` map itself is not modified by `saveUsers`. -/
def usersToSave (users : List (String × User)) (now : Nat) : List (String × User) :=
  users.map fun p => (p.1, persistedUser p.2 now)

/-! ## Authentication -/

/-- `login(username, password)`; `now` stands for `Date.now()` and
`freshToken` for the random token drawn by `generateToken()` on success. -/
def login (st : AuthState) (now : Nat) (freshToken : String)
    (username password : String) : LoginResult × AuthState :=
  match findEntry username st.users with
  | none => ({ success := false, error := some "Credenciales inválidas" }, st)
  | some user =>
    if user.role ≠ "admin" ∧ user.isLockedAt now then
      let remainingTime := (user.lockedUntil.getD 0 - now + 59999) / 60000
      ({ success := false,
         error := some ("Cuenta bloqueada. Intenta de nuevo en " ++
           toString remainingTime ++ " minutos"),
         locked := some true }, st)
    else if verifyPassword password user.passwordHash user.salt then
      let user₂ := { user with failedAttempts := 0, lockedUntil := none,
                               lastLogin := some now }
      let session : Session :=
        { username := username, role := user.role,
          createdAt := now, expiresAt := now + tokenExpiry }
      ({ success := true, token := some freshToken,
         user := some (user.username, user.role) },
       { users := updateEntry username (fun _ => user₂) st.users
         sessions := setEntry freshToken session st.sessions })
    else if user.role ≠ "admin" then
      let fa := user.failedAttempts + 1
      if maxFailedAttempts ≤ fa then
        let user₂ := { user with failedAttempts := fa,
                                 lockedUntil := some (now + lockoutDuration) }
        ({ success := false,
           error := some "Cuenta bloqueada por demasiados intentos fallidos",
           locked := some true },
         { st with users := updateEntry username (fun _ => user₂) st.users })
      else
        let user₂ := { user with failedAttempts := fa }
        ({ success := false, error := some "Credenciales inválidas",
           remainingAttempts := some (some (maxFailedAttempts - fa)) },
         { st with users := updateEntry username (fun _ => user₂) st.users })
    else
      ({ success := false, error := some "Credenciales inválidas",
         remainingAttempts := some none }, st)

/-- `validateToken(token)`: lazily removes an expired session. -/
def validateToken (st : AuthState) (now : Nat) (token : String) :
    ValidateResult × AuthState :=
  match findEntry token st.sessions with
  | none => ({ valid := false, error := some "Token inválido" }, st)
  | some session =>
    if session.expiresAt < now then
      ({ valid := false, error := some "Token expirado" },
       { st with sessions := removeEntry token st.sessions })
    else
      ({ valid := true, user := some (session.username, session.role) }, st)

/-! ## Lemmas about the association-list maps -/

theorem findEntry_nil {α : Type} (k : String) :
    findEntry k ([] : List (String × α)) = none := rfl

theorem findEntry_cons {α : Type} (k a : String) (v : α) (l : List (String × α)) :
    findEntry k ((a, v) :: l) = if a = k then some v else findEntry k l := rfl

theorem updateEntry_cons {α : Type} (k a : String) (f : α → α) (v : α)
    (l : List (String × α)) :
    updateEntry k f ((a, v) :: l) =
      (if a = k then (a, f v) else (a, v)) :: updateEntry k f l := by
  by_cases h : a = k <;> simp [updateEntry, h]

theorem findEntry_updateEntry_self {α : Type} (k : String) (f : α → α)
    (l : List (String × α)) :
    findEntry k (updateEntry k f l) = (findEntry k l).map f := by
  induction l with
  | nil => rfl
  | cons hd tl ih =>
    obtain ⟨a, v⟩ := hd
    rw [updateEntry_cons]
    by_cases h : a = k
    · rw [if_pos h, findEntry_cons, if_pos h, findEntry_cons, if_pos h]; rfl
    · rw [if_neg h, findEntry_cons, if_neg h, findEntry_cons, if_neg h, ih]

theorem findEntry_updateEntry_ne {α : Type} (x k : String) (f : α → α)
    (l : List (String × α)) (h : x ≠ k) :
    findEntry x (updateEntry k f l) = findEntry x l := by
  induction l with
  | nil => rfl
  | cons hd tl ih =>
    obtain ⟨a, v⟩ := hd
    rw [updateEntry_cons]
    by_cases hk : a = k
    · have hx : a ≠ x := by rw [hk]; exact Ne.symm h
      rw [if_pos hk, findEntry_cons, if_neg hx, findEntry_cons, if_neg hx, ih]
    · by_cases hx : a = x
      · rw [if_neg hk, findEntry_cons, if_pos hx, findEntry_cons, if_pos hx]
      · rw [if_neg hk, findEntry_cons, if_neg hx, findEntry_cons, if_neg hx, ih]

theorem setEntry_cons {α : Type} (k a : String) (v v₂ : α) (l : List (String × α)) :
    setEntry k v ((a, v₂) :: l) =
      if a = k then (k, v) :: l else (a, v₂) :: setEntry k v l := rfl

theorem findEntry_setEntry_self {α : Type} (k : String) (v : α)
    (l : List (String × α)) :
    findEntry k (setEntry k v l) = some v := by
  induction l with
  | nil => simp [setEntry, findEntry_cons]
  | cons hd tl ih =>
    obtain ⟨a, v₂⟩ := hd
    rw [setEntry_cons]
    by_cases h : a = k
    · rw [if_pos h, findEntry_cons, if_pos rfl]
    · rw [if_neg h, findEntry_cons, if_neg h, ih]

theorem findEntry_setEntry_ne {α : Type} (x k : String) (v : α)
    (l : List (String × α)) (h : x ≠ k) :
    findEntry x (setEntry k v l) = findEntry x l := by
  induction l with
  | nil => simp [setEntry, findEntry_cons, findEntry_nil, if_neg (Ne.symm h)]
  | cons hd tl ih =>
    obtain ⟨a, v₂⟩ := hd
    rw [setEntry_cons]
    by_cases hk : a = k
    · have hx : a ≠ x := by rw [hk]; exact Ne.symm h
      rw [if_pos hk, findEntry_cons, if_neg (Ne.symm h), findEntry_cons, if_neg hx]
    · by_cases hx : a = x
      · rw [if_neg hk, findEntry_cons, if_pos hx, findEntry_cons, if_pos hx]
      · rw [if_neg hk, findEntry_cons, if_neg hx, findEntry_cons, if_neg hx, ih]

theorem removeEntry_cons {α : Type} (k a : String) (v : α) (l : List (String × α)) :
    removeEntry k ((a, v) :: l) =
      if a = k then removeEntry k l else (a, v) :: removeEntry k l := by
  by_cases h : a = k <;> simp [removeEntry, List.filter_cons, h]

theorem findEntry_removeEntry_self {α : Type} (k : String) (l : List (String × α)) :
    findEntry k (removeEntry k l) = none := by
  induction l with
  | nil => rfl
  | cons hd tl ih =>
    obtain ⟨a, v⟩ := hd
    rw [removeEntry_cons]
    by_cases h : a = k
    · rw [if_pos h]; exact ih
    · rw [if_neg h, findEntry_cons, if_neg h]; exact ih

theorem findEntry_removeEntry_ne {α : Type} (x k : String) (l : List (String × α))
    (h : x ≠ k) :
    findEntry x (removeEntry k l) = findEntry x l := by
  induction l with
  | nil => rfl
  | cons hd tl ih =>
    obtain ⟨a, v⟩ := hd
    rw [removeEntry_cons]
    by_cases hk : a = k
    · have hx : a ≠ x := by rw [hk]; exact Ne.symm h
      rw [if_pos hk, findEntry_cons, if_neg hx]; exact ih
    · rw [if_neg hk, findEntry_cons, findEntry_cons]
      by_cases hx : a = x
      · rw [if_pos hx, if_pos hx]
      · rw [if_neg hx, if_neg hx]; exact ih

theorem findEntry_mapValues {α β : Type} (k : String) (f : α → β)
    (l : List (String × α)) :
    findEntry k (l.map fun p => (p.1, f p.2)) = (findEntry k l).map f := by
  induction l with
  | nil => rfl
  | cons hd tl ih =>
    obtain ⟨a, v⟩ := hd
    rw [List.map_cons]
    by_cases h : a = k
    · rw [findEntry_cons, findEntry_cons, if_pos h, if_pos h]; rfl
    · rw [findEntry_cons, findEntry_cons, if_neg h, if_neg h, ih]

theorem findEntry_eq_none_of_not_mem {α : Type} (k : String) (l : List (String × α))
    (h : k ∉ l.map Prod.fst) :
    findEntry k l = none := by
  induction l with
  | nil => rfl
  | cons hd tl ih =>
    obtain ⟨a, v⟩ := hd
    rw [List.map_cons, List.mem_cons, not_or] at h
    rw [findEntry_cons, if_neg (fun hc => h.1 hc.symm)]
    exact ih h.2

theorem findEntry_filter_of_none {α : Type} (k : String) (p : String × α → Bool)
    (l : List (String × α)) (h : findEntry k l = none) :
    findEntry k (l.filter p) = none := by
  induction l with
  | nil => rfl
  | cons hd tl ih =>
    obtain ⟨a, v⟩ := hd
    rw [findEntry_cons] at h
    by_cases hk : a = k
    · rw [if_pos hk] at h; exact absurd h (by simp)
    · rw [if_neg hk] at h
      rw [List.filter_cons]
      by_cases hp : p (a, v) = true
      · rw [if_pos hp, findEntry_cons, if_neg hk]; exact ih h
      · rw [if_neg hp]; exact ih h

/-- Any session still retrievable after the delete-user sweep does not
reference the deleted username. -/
theorem findEntry_sweep_username (l : List (String × Session)) (u tok : String)
    (s : Session)
    (h : findEntry tok (l.filter fun p => !(p.2.username == u)) = some s) :
    s.username ≠ u := by
  induction l with
  | nil => exact absurd h (by simp [findEntry_nil])
  | cons hd tl ih =>
    obtain ⟨a, v⟩ := hd
    rw [List.filter_cons] at h
    by_cases hp : v.username = u
    · rw [if_neg (by simp [hp])] at h
      exact ih h
    · by_cases hk : a = tok
      · rw [if_pos (by simp [hp]), findEntry_cons, if_pos hk] at h
        injection h with h₂
        rw [← h₂]
        exact hp
      · rw [if_pos (by simp [hp]), findEntry_cons, if_neg hk] at h
        exact ih h

/-- Under unique tokens, the delete-user sweep makes the sessions of the
deleted user unretrievable. -/
theorem findEntry_sweep_eq_none (l : List (String × Session)) (u tok : String)
    (s : Session) (hnd : (l.map Prod.fst).Nodup)
    (h : findEntry tok l = some s) (hu : s.username = u) :
    findEntry tok (l.filter fun p => !(p.2.username == u)) = none := by
  induction l with
  | nil => exact absurd h (by simp [findEntry_nil])
  | cons hd tl ih =>
    obtain ⟨a, v⟩ := hd
    rw [List.map_cons, List.nodup_cons] at hnd
    rw [findEntry_cons] at h
    rw [List.filter_cons]
    by_cases hk : a = tok
    · rw [if_pos hk] at h
      injection h with h₂
      rw [if_neg (by simp [h₂, hu])]
      apply findEntry_filter_of_none
      apply findEntry_eq_none_of_not_mem
      rw [← hk]
      exact hnd.1
    · rw [if_neg hk] at h
      by_cases hp : v.username = u
      · rw [if_neg (by simp [hp])]
        exact ih hnd.2 h
      · rw [if_pos (by simp [hp]), findEntry_cons, if_neg hk]
        exact ih hnd.2 h

/-! ## General facts about the operations -/

/-- `validateToken` reads only the session store. -/
theorem validateToken_fst_congr (st₁ st₂ : AuthState) (now : Nat) (tok : String)
    (h : st₁.sessions = st₂.sessions) :
    (validateToken st₁ now tok).1 = (validateToken st₂ now tok).1 := by
  unfold validateToken
  rw [h]
  cases findEntry tok st₂.sessions with
  | none => rfl
  | some s =>
    by_cases he : s.expiresAt < now
    · simp [he]
    · simp [he]

/-- A login attempt for one username never touches the record of another. -/
theorem login_users_other (st : AuthState) (now : Nat) (tok name p v : String)
    (hne : v ≠ name) :
    findEntry v (login st now tok name p).2.users = findEntry v st.users := by
  cases hfind : findEntry name st.users with
  | none => simp only [login, hfind]
  | some user =>
    simp only [login, hfind]
    by_cases h₁ : user.role ≠ "admin" ∧ user.isLockedAt now = true
    · rw [if_pos h₁]
    · rw [if_neg h₁]
      by_cases h₂ : verifyPassword p user.passwordHash user.salt = true
      · rw [if_pos h₂]
        dsimp only
        exact findEntry_updateEntry_ne v name _ st.users hne
      · rw [if_neg h₂]
        by_cases h₃ : user.role ≠ "admin"
        · rw [if_pos h₃]
          by_cases h₄ : maxFailedAttempts ≤ user.failedAttempts + 1
          · rw [if_pos h₄]
            dsimp only
            exact findEntry_updateEntry_ne v name _ st.users hne
          · rw [if_neg h₄]
            dsimp only
            exact findEntry_updateEntry_ne v name _ st.users hne
        · rw [if_neg h₃]

/-- `findEntry` after the persistence projection of `saveUsers`. -/
theorem findEntry_usersToSave (k : String) (l : List (String × User)) (now : Nat) :
    findEntry k (usersToSave l now) = (findEntry k l).map fun u => persistedUser u now := by
  induction l with
  | nil => rfl
  | cons hd tl ih =>
    obtain ⟨a, v⟩ := hd
    rw [usersToSave, List.map_cons]
    by_cases h : a = k
    · rw [findEntry_cons, findEntry_cons, if_pos h, if_pos h]; rfl
    · rw [findEntry_cons, findEntry_cons, if_neg h, if_neg h, ← ih, usersToSave]

/-! ## Claim theorems -/

/-- C9: a login for a username that is not in the store returns the generic
invalid-credentials failure (no `locked` flag, no `remainingAttempts` field)
and leaves the user map and the session map completely unchanged. -/
theorem C9_login_unknown_username (st : AuthState) (now : Nat) (tok name p : String)
    (hu : findEntry name st.users = none) :
    login st now tok name p =
      ({ success := false, error := some "Credenciales inválidas" }, st) ∧
    (login st now tok name p).1.locked = none ∧
    (login st now tok name p).1.remainingAttempts = none ∧
    (login st now tok name p).2.users = st.users ∧
    (login st now tok name p).2.sessions = st.sessions := by
  have h : login st now tok name p =
      ({ success := false, error := some "Credenciales inválidas" }, st) := by
    simp only [login, hu]
  exact ⟨h, by rw [h], by rw [h], by rw [h], by rw [h]⟩

/-- C9 witness: a concrete login against a store that does not contain the
requested username. -/
theorem C9_login_unknown_username_witness :
    login { users := [], sessions := [] } 5 "tok" "ghost" "pw" =
      ({ success := false, error := some "Credenciales inválidas" },
       { users := [], sessions := [] }) :=
  (C9_login_unknown_username { users := [], sessions := [] } 5 "tok" "ghost" "pw" rfl).1

/-- C8: `createUser` for a username that already exists (store usernames
always have at least 3 characters, the invariant `createUser` itself
enforces) returns the conflict error and returns the entire state
unchanged. -/
theorem C8_createUser_conflict (st : AuthState) (now : Nat) (salt : String)
    (name p r : String) (w : User)
    (hu : findEntry name st.users = some w) (hlen : 3 ≤ name.length) :
    createUser st now salt name p r =
      ({ success := false, error := some "El usuario ya existe" }, st) := by
  have h3 : ¬(name.length < 3) := by omega
  simp only [createUser, h3, if_false, hu]

/-- A concrete store whose only record is the admin user. -/
def adminOnlyUser : User :=
  { username := "admin", passwordHash := "h", salt := "s", role := "admin",
    createdAt := 0, failedAttempts := 0, lockedUntil := none, lastLogin := none }

def adminOnlyState : AuthState := { users := [("admin", adminOnlyUser)], sessions := [] }

/-- C8 witness: creating `admin` again in a store that already has it. -/
theorem C8_createUser_conflict_witness :
    createUser adminOnlyState 9 "s2" "admin" "Other@123" "user" =
      ({ success := false, error := some "El usuario ya existe" }, adminOnlyState) :=
  C8_createUser_conflict adminOnlyState 9 "s2" "admin" "Other@123" "user"
    adminOnlyUser rfl (by decide)

/-- C6: the object `saveUsers` writes to disk keeps `failedAttempts` only for
presently locked accounts and zeroes it otherwise, so no persisted record
combines a non-zero counter with an absent or expired lock; the in-memory
map is left as is (`usersToSave` is a pure view of it). -/
theorem C6_saveUsers_self_heals (users : List (String × User)) (now : Nat) :
    (∀ name u, findEntry name users = some u →
       findEntry name (usersToSave users now) =
         some { u with failedAttempts := if u.isLockedAt now then u.failedAttempts else 0 }) ∧
    (∀ name u₂, findEntry name (usersToSave users now) = some u₂ →
       u₂.failedAttempts ≠ 0 → ∃ t, u₂.lockedUntil = some t ∧ now < t) := by
  constructor
  · intro name u hu
    rw [findEntry_usersToSave, hu]
    rfl
  · intro name u₂ h₂ hfa
    rw [findEntry_usersToSave] at h₂
    cases hu : findEntry name users with
    | none => rw [hu] at h₂; exact absurd h₂ (by simp)
    | some u =>
      rw [hu] at h₂
      have h₃ : persistedUser u now = u₂ := by simpa using h₂
      by_cases hl : u.isLockedAt now = true
      · cases ht : u.lockedUntil with
        | none => rw [User.isLockedAt, ht] at hl; exact absurd hl (by simp)
        | some t =>
          rw [User.isLockedAt, ht] at hl
          refine ⟨t, ?_, by simpa using hl⟩
          rw [← h₃]
          show u.lockedUntil = some t
          exact ht
      · have hl₂ : u.isLockedAt now = false := by
          revert hl; cases u.isLockedAt now <;> simp
        have hz : u₂.failedAttempts = 0 := by
          rw [← h₃]
          show (if u.isLockedAt now then u.failedAttempts else 0) = 0
          rw [hl₂]
          rfl
        exact absurd hz hfa

/-- C6 witness: one locked and one stale record at a concrete time. -/
theorem C6_saveUsers_self_heals_witness :
    findEntry "bob"
      (usersToSave [("bob",
        { username := "bob", passwordHash := "h", salt := "s", role := "user",
          createdAt := 0, failedAttempts := 4, lockedUntil := some 10, lastLogin := none })] 99) =
      some { username := "bob", passwordHash := "h", salt := "s", role := "user",
             createdAt := 0, failedAttempts := 0, lockedUntil := some 10, lastLogin := none } := by
  have h := (C6_saveUsers_self_heals [("bob",
      { username := "bob", passwordHash := "h", salt := "s", role := "user",
        createdAt := 0, failedAttempts := 4, lockedUntil := some 10, lastLogin := none })] 99).1
      "bob" _ rfl
  rw [h]
  rfl

/-- The five violation messages, in push order. -/
theorem errors_eq (p : String) :
    (validatePasswordComplexity p).errors =
      (if p.length < 8 then [msgMinLength] else []) ++
      (if hasUppercase p then [] else [msgUppercase]) ++
      (if hasLowercase p then [] else [msgLowercase]) ++
      (if hasNumber p then [] else [msgNumber]) ++
      (if hasSpecialChar p then [] else [msgSpecialChar]) := by
  show (if p.length < passwordRequirements.minLength then [msgMinLength] else []) ++ _ ++ _ ++ _ ++ _ = _
  rw [show passwordRequirements.minLength = 8 from rfl]
  cases hasUppercase p <;> cases hasLowercase p <;> cases hasNumber p <;>
    cases hasSpecialChar p <;> rfl

theorem valid_iff_errors_nil (p : String) :
    (validatePasswordComplexity p).valid = true ↔
      (validatePasswordComplexity p).errors = [] := by
  show (validatePasswordComplexity p).errors.isEmpty = true ↔ _
  exact List.isEmpty_iff

theorem mem_errors_minLength (p : String) :
    msgMinLength ∈ (validatePasswordComplexity p).errors ↔ p.length < 8 := by
  rw [errors_eq]
  by_cases h₁ : p.length < 8 <;> cases hasUppercase p <;> cases hasLowercase p <;>
    cases hasNumber p <;> cases hasSpecialChar p <;> simp [h₁] <;> decide

theorem mem_errors_uppercase (p : String) :
    msgUppercase ∈ (validatePasswordComplexity p).errors ↔ hasUppercase p = false := by
  rw [errors_eq]
  by_cases h₁ : p.length < 8 <;> cases hasUppercase p <;> cases hasLowercase p <;>
    cases hasNumber p <;> cases hasSpecialChar p <;> simp [h₁] <;> decide

theorem mem_errors_lowercase (p : String) :
    msgLowercase ∈ (validatePasswordComplexity p).errors ↔ hasLowercase p = false := by
  rw [errors_eq]
  by_cases h₁ : p.length < 8 <;> cases hasUppercase p <;> cases hasLowercase p <;>
    cases hasNumber p <;> cases hasSpecialChar p <;> simp [h₁] <;> decide

theorem mem_errors_number (p : String) :
    msgNumber ∈ (validatePasswordComplexity p).errors ↔ hasNumber p = false := by
  rw [errors_eq]
  by_cases h₁ : p.length < 8 <;> cases hasUppercase p <;> cases hasLowercase p <;>
    cases hasNumber p <;> cases hasSpecialChar p <;> simp [h₁] <;> decide

theorem mem_errors_specialChar (p : String) :
    msgSpecialChar ∈ (validatePasswordComplexity p).errors ↔ hasSpecialChar p = false := by
  rw [errors_eq]
  by_cases h₁ : p.length < 8 <;> cases hasUppercase p <;> cases hasLowercase p <;>
    cases hasNumber p <;> cases hasSpecialChar p <;> simp [h₁] <;> decide

/-- C7: the complexity validator rejects "abc" with the four expected
violations (and at least four in total), accepts "Abc12345!" with an empty
violation list, and, for every candidate, reports each violated rule in the
single returned list (no short-circuiting): each message is present exactly
when its rule is violated, and validity is emptiness of that list. -/
theorem C7_validatePasswordComplexity_spec :
    ((validatePasswordComplexity "abc").valid = false ∧
     4 ≤ (validatePasswordComplexity "abc").errors.length ∧
     msgMinLength ∈ (validatePasswordComplexity "abc").errors ∧
     msgUppercase ∈ (validatePasswordComplexity "abc").errors ∧
     msgNumber ∈ (validatePasswordComplexity "abc").errors ∧
     msgSpecialChar ∈ (validatePasswordComplexity "abc").errors) ∧
    ((validatePasswordComplexity "Abc12345!").valid = true ∧
     (validatePasswordComplexity "Abc12345!").errors = []) ∧
    (∀ p : String,
      ((validatePasswordComplexity p).valid = true ↔
        (validatePasswordComplexity p).errors = []) ∧
      (msgMinLength ∈ (validatePasswordComplexity p).errors ↔ p.length < 8) ∧
      (msgUppercase ∈ (validatePasswordComplexity p).errors ↔ hasUppercase p = false) ∧
      (msgLowercase ∈ (validatePasswordComplexity p).errors ↔ hasLowercase p = false) ∧
      (msgNumber ∈ (validatePasswordComplexity p).errors ↔ hasNumber p = false) ∧
      (msgSpecialChar ∈ (validatePasswordComplexity p).errors ↔
        hasSpecialChar p = false)) :=
  ⟨by decide, by decide, fun p =>
    ⟨valid_iff_errors_nil p, mem_errors_minLength p, mem_errors_uppercase p,
     mem_errors_lowercase p, mem_errors_number p, mem_errors_specialChar p⟩⟩

/-- C10: `updatePassword` on an existing user with a policy-satisfying new
password succeeds and rewrites only that user's `passwordHash` and `salt`;
role, createdAt, failedAttempts, lockedUntil (so a locked account stays
locked) and lastLogin are untouched, every other user record is untouched,
and the session store is untouched, so existing tokens validate as before. -/
theorem C10_updatePassword_frame (st : AuthState) (salt name newp : String) (w : User)
    (hu : findEntry name st.users = some w)
    (hv : (validatePasswordComplexity newp).valid = true) :
    (updatePassword st salt name newp).1 =
      { success := true, message := some "Contraseña actualizada" } ∧
    (updatePassword st salt name newp).2.sessions = st.sessions ∧
    findEntry name (updatePassword st salt name newp).2.users =
      some { w with passwordHash := pbkdf2Sync newp salt, salt := salt } ∧
    (∀ v, v ≠ name →
      findEntry v (updatePassword st salt name newp).2.users = findEntry v st.users) ∧
    (∀ now tok, (validateToken (updatePassword st salt name newp).2 now tok).1 =
      (validateToken st now tok).1) := by
  have hst : updatePassword st salt name newp =
      ({ success := true, message := some "Contraseña actualizada" },
       { st with users := updateEntry name (fun u => { u with passwordHash := pbkdf2Sync newp salt, salt := salt }) st.users }) := by
    simp only [updatePassword, hu, hv, if_true, hashPassword]
  refine ⟨by rw [hst], by rw [hst], ?_, ?_, ?_⟩
  · rw [hst]
    dsimp only
    rw [findEntry_updateEntry_self, hu]
    rfl
  · intro v hne
    rw [hst]
    dsimp only
    exact findEntry_updateEntry_ne v name _ st.users hne
  · intro now tok
    apply validateToken_fst_congr
    rw [hst]

/-- A concrete two-user store with one session, used by several witnesses. -/
def bobUser : User :=
  { username := "bob", passwordHash := pbkdf2Sync "Bob@12345" "bs", salt := "bs",
    role := "user", createdAt := 2, failedAttempts := 1, lockedUntil := some 99999,
    lastLogin := none }

def twoUserState : AuthState :=
  { users := [("admin", adminOnlyUser), ("bob", bobUser)],
    sessions := [("tokB",
      { username := "bob", role := "user", createdAt := 3, expiresAt := 503 }),
      ("tokA",
      { username := "admin", role := "admin", createdAt := 4, expiresAt := 504 })] }

/-- C10 witness: an administrative password reset for the (locked) user
`bob` in a concrete store. -/
theorem C10_updatePassword_frame_witness :
    findEntry "bob" (updatePassword twoUserState "ns" "bob" "New@12345").2.users =
      some { bobUser with passwordHash := pbkdf2Sync "New@12345" "ns", salt := "ns" } ∧
    (updatePassword twoUserState "ns" "bob" "New@12345").2.sessions =
      twoUserState.sessions :=
  ⟨(C10_updatePassword_frame twoUserState "ns" "bob" "New@12345" bobUser
      rfl (by decide)).2.2.1,
   (C10_updatePassword_frame twoUserState "ns" "bob" "New@12345" bobUser
      rfl (by decide)).2.1⟩

/-- C5: deleting an existing non-admin user removes the user record, removes
exactly the sessions whose `username` field references it (every other
session survives with its token), and (tokens being unique keys) any removed
token afterwards validates as invalid. -/
theorem C5_deleteUser_cascades (st : AuthState) (name : String) (u : User)
    (hadmin : name ≠ "admin") (hu : findEntry name st.users = some u)
    (hnd : (st.sessions.map Prod.fst).Nodup) :
    (deleteUser st name).1 = { success := true, message := some "Usuario eliminado" } ∧
    findEntry name (deleteUser st name).2.users = none ∧
    (deleteUser st name).2.sessions =
      st.sessions.filter (fun p => !(p.2.username == name)) ∧
    (∀ tok s, findEntry tok (deleteUser st name).2.sessions = some s →
      s.username ≠ name) ∧
    (∀ tok s, findEntry tok st.sessions = some s → s.username = name →
      ∀ now, validateToken (deleteUser st name).2 now tok =
        ({ valid := false, error := some "Token inválido" }, (deleteUser st name).2)) := by
  have hst : deleteUser st name =
      ({ success := true, message := some "Usuario eliminado" },
       { users := removeEntry name st.users
         sessions := st.sessions.filter fun p => !(p.2.username == name) }) := by
    simp only [deleteUser, hadmin, if_neg, hu]
    rfl
  refine ⟨by rw [hst], ?_, by rw [hst], ?_, ?_⟩
  · rw [hst]
    exact findEntry_removeEntry_self name st.users
  · intro tok s hs
    rw [hst] at hs
    exact findEntry_sweep_username st.sessions name tok s hs
  · intro tok s hs husr now
    have hnone : findEntry tok (deleteUser st name).2.sessions = none := by
      rw [hst]
      exact findEntry_sweep_eq_none st.sessions name tok s hnd hs husr
    simp only [validateToken, hnone]

/-- C5 witness: deleting `bob` removes his session `tokB`, keeps the admin
session `tokA`, and `tokB` then validates as invalid. -/
theorem C5_deleteUser_cascades_witness :
    findEntry "bob" (deleteUser twoUserState "bob").2.users = none ∧
    (∀ s, findEntry "tokA" (deleteUser twoUserState "bob").2.sessions = some s →
      s.username ≠ "bob") ∧
    validateToken (deleteUser twoUserState "bob").2 50 "tokB" =
      ({ valid := false, error := some "Token inválido" },
       (deleteUser twoUserState "bob").2) :=
  ⟨(C5_deleteUser_cascades twoUserState "bob" bobUser (by decide) rfl
      (by decide)).2.1,
   fun s hs => (C5_deleteUser_cascades twoUserState "bob" bobUser (by decide) rfl
      (by decide)).2.2.2.1 "tokA" s hs,
   (C5_deleteUser_cascades twoUserState "bob" bobUser (by decide) rfl
      (by decide)).2.2.2.2 "tokB"
      { username := "bob", role := "user", createdAt := 3, expiresAt := 503 }
      rfl rfl 50⟩

/-- After a login call, the target user's record is unchanged, reset by a
successful login, or (non-admin only) incremented and possibly locked. -/
theorem login_self_cases (st : AuthState) (now : Nat) (tok name p : String) (u : User)
    (hu : findEntry name st.users = some u) :
    findEntry name (login st now tok name p).2.users = some u ∨
    findEntry name (login st now tok name p).2.users =
      some { u with failedAttempts := 0, lockedUntil := none, lastLogin := some now } ∨
    (u.role ≠ "admin" ∧
      (findEntry name (login st now tok name p).2.users =
         some { u with failedAttempts := u.failedAttempts + 1 } ∨
       findEntry name (login st now tok name p).2.users =
         some { u with failedAttempts := u.failedAttempts + 1,
                       lockedUntil := some (now + lockoutDuration) })) := by
  simp only [login, hu]
  by_cases h₁ : u.role ≠ "admin" ∧ u.isLockedAt now = true
  · rw [if_pos h₁]
    exact Or.inl hu
  · rw [if_neg h₁]
    by_cases h₂ : verifyPassword p u.passwordHash u.salt = true
    · rw [if_pos h₂]
      refine Or.inr (Or.inl ?_)
      dsimp only
      rw [findEntry_updateEntry_self, hu]
      rfl
    · rw [if_neg h₂]
      by_cases h₃ : u.role ≠ "admin"
      · rw [if_pos h₃]
        by_cases h₄ : maxFailedAttempts ≤ u.failedAttempts + 1
        · rw [if_pos h₄]
          refine Or.inr (Or.inr ⟨h₃, Or.inr ?_⟩)
          dsimp only
          rw [findEntry_updateEntry_self, hu]
          rfl
        · rw [if_neg h₄]
          refine Or.inr (Or.inr ⟨h₃, Or.inl ?_⟩)
          dsimp only
          rw [findEntry_updateEntry_self, hu]
          rfl
      · rw [if_neg h₃]
        exact Or.inl hu

/-- C3: a wrong password for an admin-role user is rejected with the generic
error and no state change at all; moreover no login call ever increases an
admin-role record's failed counter or gives it a lock, so admin accounts
never enter the Locked state through login. -/
theorem C3_admin_exempt (st : AuthState) (now : Nat) (tok name p : String) (u : User)
    (hu : findEntry name st.users = some u) (hrole : u.role = "admin")
    (hv : verifyPassword p u.passwordHash u.salt = false) :
    login st now tok name p =
      ({ success := false, error := some "Credenciales inválidas",
         remainingAttempts := some none }, st) ∧
    (∀ (st₂ : AuthState) (now₂ : Nat) (tok₂ name₂ p₂ v : String) (w : User),
      findEntry v st₂.users = some w → w.role = "admin" →
      ∃ w₂, findEntry v (login st₂ now₂ tok₂ name₂ p₂).2.users = some w₂ ∧
        w₂.role = "admin" ∧ w₂.failedAttempts ≤ w.failedAttempts ∧
        (w₂.lockedUntil = w.lockedUntil ∨ w₂.lockedUntil = none)) := by
  constructor
  · simp only [login, hu]
    have h₁ : ¬(u.role ≠ "admin" ∧ u.isLockedAt now = true) := by
      intro h
      exact h.1 hrole
    rw [if_neg h₁]
    have h₂ : ¬(verifyPassword p u.passwordHash u.salt = true) := by
      rw [hv]
      exact Bool.false_ne_true
    rw [if_neg h₂]
    have h₃ : ¬(u.role ≠ "admin") := fun h => h hrole
    rw [if_neg h₃]
  · intro st₂ now₂ tok₂ name₂ p₂ v w hw hwrole
    by_cases hvn : v = name₂
    · subst hvn
      rcases login_self_cases st₂ now₂ tok₂ v p₂ w hw with h | h | h
      · exact ⟨w, h, hwrole, le_refl _, Or.inl rfl⟩
      · exact ⟨_, h, hwrole, Nat.zero_le _, Or.inr rfl⟩
      · exact absurd hwrole h.1
    · refine ⟨w, ?_, hwrole, le_refl _, Or.inl rfl⟩
      rw [login_users_other st₂ now₂ tok₂ name₂ p₂ v hvn]
      exact hw

/-- C3 witness: a wrong password against the concrete admin-only store. -/
theorem C3_admin_exempt_witness :
    login adminOnlyState 7 "t" "admin" "wrongpw" =
      ({ success := false, error := some "Credenciales inválidas",
         remainingAttempts := some none }, adminOnlyState) :=
  (C3_admin_exempt adminOnlyState 7 "t" "admin" "wrongpw" adminOnlyUser
    rfl rfl (by decide)).1

/-- C1: for a non-admin user, (a) while `lockedUntil` lies in the future
every login attempt — the password is arbitrary, so also the correct one —
is rejected with the locked error carrying the ceiling-division remaining
minutes, before any password check and with no state change; (b) the
failed attempt that makes the counter reach `maxFailedAttempts` (6) sets
`lockedUntil = now + lockoutDuration` (30 minutes), entering Locked; and
(c) an explicit unlock clears counter and lock. -/
theorem C1_lockout_state_machine (st : AuthState) (now : Nat) (tok name p : String)
    (u : User) (hu : findEntry name st.users = some u) (hrole : u.role ≠ "admin") :
    (∀ t, u.lockedUntil = some t → now < t →
      login st now tok name p =
        ({ success := false,
           error := some ("Cuenta bloqueada. Intenta de nuevo en " ++
             toString ((t - now + 59999) / 60000) ++ " minutos"),
           locked := some true }, st)) ∧
    (u.isLockedAt now = false →
     verifyPassword p u.passwordHash u.salt = false →
     u.failedAttempts + 1 = maxFailedAttempts →
      login st now tok name p =
        ({ success := false,
           error := some "Cuenta bloqueada por demasiados intentos fallidos",
           locked := some true },
         { st with users := updateEntry name (fun _ => { u with failedAttempts := maxFailedAttempts, lockedUntil := some (now + lockoutDuration) }) st.users })) ∧
    findEntry name (unlockUser st name).2.users =
      some { u with failedAttempts := 0, lockedUntil := none } := by
  refine ⟨?_, ?_, ?_⟩
  · intro t ht hlt
    have hl : u.isLockedAt now = true := by
      rw [User.isLockedAt, ht]
      exact decide_eq_true hlt
    simp only [login, hu]
    rw [if_pos ⟨hrole, hl⟩, ht]
    rfl
  · intro hlock hv hfa
    simp only [login, hu]
    have h₁ : ¬(u.role ≠ "admin" ∧ u.isLockedAt now = true) := by
      intro h
      rw [hlock] at h
      exact Bool.false_ne_true h.2
    rw [if_neg h₁]
    have h₂ : ¬(verifyPassword p u.passwordHash u.salt = true) := by
      rw [hv]
      exact Bool.false_ne_true
    rw [if_neg h₂, if_pos hrole, if_pos (Nat.le_of_eq hfa.symm), hfa]
  · simp only [unlockUser, hu]
    rw [findEntry_updateEntry_self, hu]
    rfl

/-- A concrete store holding only the locked non-admin user `bob`. -/
def lockedBobState : AuthState := { users := [("bob", bobUser)], sessions := [] }

/-- C1 witness: at time 40000 the lock until 99999 rejects even the correct
password with a 1-minute message and leaves the state unchanged. -/
theorem C1_lockout_state_machine_witness :
    login lockedBobState 40000 "t" "bob" "Bob@12345" =
      ({ success := false,
         error := some ("Cuenta bloqueada. Intenta de nuevo en " ++
           toString ((99999 - 40000 + 59999) / 60000) ++ " minutos"),
         locked := some true }, lockedBobState) :=
  (C1_lockout_state_machine lockedBobState 40000 "t" "bob" "Bob@12345" bobUser
    rfl (by decide)).1 99999 rfl (by decide)

/-- C4: the token issued by a successful login validates, at issuance time,
as valid with exactly the login username and the user's role; once
`expiresAt` ( = issuance time + tokenExpiry) has passed, validating it
reports invalid and deletes the session, after which every later validate
call on that token reports the token as unknown. -/
theorem C4_validate_issue_roundtrip (st : AuthState) (now : Nat) (tok name p : String)
    (u : User) (hu : findEntry name st.users = some u)
    (hnl : ¬(u.role ≠ "admin" ∧ u.isLockedAt now = true))
    (hv : verifyPassword p u.passwordHash u.salt = true) :
    (login st now tok name p).1.success = true ∧
    (login st now tok name p).1.token = some tok ∧
    validateToken (login st now tok name p).2 now tok =
      ({ valid := true, user := some (name, u.role) }, (login st now tok name p).2) ∧
    (∀ now₂, now + tokenExpiry < now₂ →
      validateToken (login st now tok name p).2 now₂ tok =
        ({ valid := false, error := some "Token expirado" },
         { (login st now tok name p).2 with sessions := removeEntry tok (login st now tok name p).2.sessions }) ∧
      (∀ now₃, (validateToken { (login st now tok name p).2 with sessions := removeEntry tok (login st now tok name p).2.sessions } now₃ tok).1 =
        { valid := false, error := some "Token inválido" })) := by
  have hst : login st now tok name p =
      ({ success := true, token := some tok, user := some (u.username, u.role) },
       { users := updateEntry name (fun _ => { u with failedAttempts := 0, lockedUntil := none, lastLogin := some now }) st.users
         sessions := setEntry tok { username := name, role := u.role, createdAt := now, expiresAt := now + tokenExpiry } st.sessions }) := by
    simp only [login, hu]
    rw [if_neg hnl, if_pos hv]
  have hfind : findEntry tok (login st now tok name p).2.sessions =
      some { username := name, role := u.role, createdAt := now,
             expiresAt := now + tokenExpiry } := by
    rw [hst]
    exact findEntry_setEntry_self tok _ st.sessions
  refine ⟨by rw [hst], by rw [hst], ?_, ?_⟩
  · show validateToken _ now tok = _
    rw [validateToken, hfind]
    dsimp only
    have hne : ¬(now + tokenExpiry < now) := by
      simp [tokenExpiry]
    rw [if_neg hne]
  · intro now₂ hlt
    have hexp : now + tokenExpiry < now₂ := hlt
    constructor
    · rw [validateToken, hfind]
      dsimp only
      rw [if_pos hexp]
    · intro now₃
      have hnone : findEntry tok
          (removeEntry tok (login st now tok name p).2.sessions) = none :=
        findEntry_removeEntry_self tok _
      rw [validateToken]
      dsimp only
      rw [hnone]

/-- A concrete unlocked user whose stored digest matches password Carol@123. -/
def carolUser : User :=
  { username := "carol", passwordHash := pbkdf2Sync "Carol@123" "cs", salt := "cs",
    role := "user", createdAt := 0, failedAttempts := 0, lockedUntil := none,
    lastLogin := none }

def carolState : AuthState := { users := [("carol", carolUser)], sessions := [] }

/-- C4 witness: a concrete successful login at time 100, validated at 100,
then at a time past expiry, then again after the lazy removal. -/
theorem C4_validate_issue_roundtrip_witness :
    (login carolState 100 "tokC" "carol" "Carol@123").1.success = true ∧
    validateToken (login carolState 100 "tokC" "carol" "Carol@123").2 100 "tokC" =
      ({ valid := true, user := some ("carol", "user") },
       (login carolState 100 "tokC" "carol" "Carol@123").2) ∧
    (validateToken { (login carolState 100 "tokC" "carol" "Carol@123").2 with sessions := removeEntry "tokC" (login carolState 100 "tokC" "carol" "Carol@123").2.sessions } 7 "tokC").1 =
      { valid := false, error := some "Token inválido" } :=
  ⟨(C4_validate_issue_roundtrip carolState 100 "tokC" "carol" "Carol@123" carolUser
      rfl (by decide) (by decide)).1,
   (C4_validate_issue_roundtrip carolState 100 "tokC" "carol" "Carol@123" carolUser
      rfl (by decide) (by decide)).2.2.1,
   ((C4_validate_issue_roundtrip carolState 100 "tokC" "carol" "Carol@123" carolUser
      rfl (by decide) (by decide)).2.2.2 86400200 (by decide)).2 7⟩

/-! ## The C2 scenario -/

def emptyState : AuthState := { users := [], sessions := [] }

/-- The store right after `createUser("alice", "Passw0rd!")` at time 0. -/
def aliceState : AuthState :=
  (createUser emptyState 0 "as" "alice" "Passw0rd!" "user").2

/-- One wrong-password login attempt for alice at time 1000. -/
def aliceWrong (st : AuthState) : LoginResult × AuthState :=
  login st 1000 "t" "alice" "wrongpass"

def aliceS1 : AuthState := (aliceWrong aliceState).2

def aliceS2 : AuthState := (aliceWrong aliceS1).2

def aliceS3 : AuthState := (aliceWrong aliceS2).2

def aliceS4 : AuthState := (aliceWrong aliceS3).2

def aliceS5 : AuthState := (aliceWrong aliceS4).2

def aliceS6 : AuthState := (aliceWrong aliceS5).2

/-- C2 counterexample: with `maxFailedAttempts = 6`, the very first wrong
attempt against the fresh `alice` account reports `remainingAttempts = 5`,
not the 4 the claimed 4,3,2,1,0 sequence begins with. -/
theorem C2_remaining_attempts_counterexample :
    (aliceWrong aliceState).1.remainingAttempts = some (some 5) ∧
    ¬((aliceWrong aliceState).1.remainingAttempts = some (some 4)) := by decide

/-- C2 (amended): the five consecutive wrong attempts report
`remainingAttempts` 5,4,3,2,1; the sixth wrong attempt locks the account;
the correct password during the lock is still rejected as locked; after the
lock has expired the correct password succeeds and issues the fresh token. -/
theorem C2_lockout_scenario :
    (createUser emptyState 0 "as" "alice" "Passw0rd!" "user").1.success = true ∧
    (aliceWrong aliceState).1 =
      { success := false, error := some "Credenciales inválidas",
        remainingAttempts := some (some 5) } ∧
    (aliceWrong aliceS1).1 =
      { success := false, error := some "Credenciales inválidas",
        remainingAttempts := some (some 4) } ∧
    (aliceWrong aliceS2).1 =
      { success := false, error := some "Credenciales inválidas",
        remainingAttempts := some (some 3) } ∧
    (aliceWrong aliceS3).1 =
      { success := false, error := some "Credenciales inválidas",
        remainingAttempts := some (some 2) } ∧
    (aliceWrong aliceS4).1 =
      { success := false, error := some "Credenciales inválidas",
        remainingAttempts := some (some 1) } ∧
    (aliceWrong aliceS5).1 =
      { success := false, error := some "Cuenta bloqueada por demasiados intentos fallidos",
        locked := some true } ∧
    (findEntry "alice" aliceS6.users).map User.lockedUntil = some (some 1801000) ∧
    (login aliceS6 2000 "t" "alice" "Passw0rd!").1 =
      { success := false,
        error := some "Cuenta bloqueada. Intenta de nuevo en 30 minutos",
        locked := some true } ∧
    (login aliceS6 2000000 "tok8" "alice" "Passw0rd!").1.success = true ∧
    (login aliceS6 2000000 "tok8" "alice" "Passw0rd!").1.token = some "tok8" := by
  decide

end Auth
